import Mathlib

/-!
Verification of the inventory-reservation / order-checkout core of the
Ecommerce repository, shallowly embedded in Lean 4.

Sources embedded here:
* `apps/products/models/inventory.py` (`Inventory.reserve`, `release`,
  `confirm_reservation`, `adjust_stock`),
* `apps/orders/services/checkout_service.py` (`CheckoutService`),
* `apps/orders/services/order_service.py` (`OrderService`),
* `apps/orders/models/order.py` (`OrderItem.save` snapshotting),
* `apps/cart/models.py` (`Cart.subtotal`, `Cart.clear`).

Modelling conventions: each Django row is a structure; database mutation
under `transaction.atomic` with `select_for_update` is modelled as a pure
state transformer executed sequentially (the lock makes each mutator
atomic, so its single-threaded denotation is exactly the locked
read-modify-write).  A Python exception escaping a `@transaction.atomic`
function rolls the database back, so a failing service call is modelled
as `Except.error e` carrying no state: the caller keeps the pre-call
state.  Django `IntegerField` values are `Int`, `PositiveIntegerField`
values are `Nat`.  Python `decimal.Decimal` values are exact rationals
tagged `pdec`; `float` literals are rationals tagged `pfloat`; `int`
values are tagged `pint`.  The tag matters because CPython refuses
arithmetic that mixes `Decimal` with `float` (it raises `TypeError`),
while comparisons between them are allowed; `pyMul`/`pyAdd` below return
`none` exactly on the mixes CPython rejects.
-/

namespace Ecommerce

/-- `apps/products/models/inventory.py`: the `Inventory` row.
`product` is kept externally as the key of the inventory table. -/
structure Inventory where
  quantity : Int
  reserved : Int
  low_stock_threshold : Int
  deriving Repr, DecidableEq

namespace Inventory

/-- `Inventory.available`: `max(0, self.quantity - self.reserved)`. -/
def available (inv : Inventory) : Int :=
  max 0 (inv.quantity - inv.reserved)

/-- `Inventory.is_low_stock`: `self.available <= self.low_stock_threshold`. -/
def is_low_stock (inv : Inventory) : Bool :=
  inv.available ≤ inv.low_stock_threshold

/-- `Inventory.is_in_stock`: `self.available > 0`. -/
def is_in_stock (inv : Inventory) : Bool :=
  inv.available > 0

/-- `Inventory.reserve(quantity)`: under the row lock, if
`available >= quantity` then `reserved += quantity` and return `True`,
else leave the row unchanged and return `False`.  The returned pair is
(new row state, success flag). -/
def reserve (inv : Inventory) (quantity : Int) : Inventory × Bool :=
  if inv.available ≥ quantity then
    ({ inv with reserved := inv.reserved + quantity }, true)
  else
    (inv, false)

/-- `Inventory.release(quantity)`: under the row lock,
`reserved = max(0, reserved - quantity)`; no return value. -/
def release (inv : Inventory) (quantity : Int) : Inventory :=
  { inv with reserved := max 0 (inv.reserved - quantity) }

/-- `Inventory.confirm_reservation(quantity)`: under the row lock,
`quantity -= quantity_arg` and `reserved -= quantity_arg`. -/
def confirm_reservation (inv : Inventory) (quantity : Int) : Inventory :=
  { inv with quantity := inv.quantity - quantity,
             reserved := inv.reserved - quantity }

/-- `Inventory.adjust_stock(quantity)`: under the row lock,
`quantity += quantity_arg`; `reserved` untouched. -/
def adjust_stock (inv : Inventory) (quantity : Int) : Inventory :=
  { inv with quantity := inv.quantity + quantity }

/-- The spec's inventory invariant `0 ≤ reserved ≤ quantity`. -/
def invariant (inv : Inventory) : Prop :=
  0 ≤ inv.reserved ∧ inv.reserved ≤ inv.quantity

instance (inv : Inventory) : Decidable inv.invariant := by
  unfold invariant; infer_instance

end Inventory

/-- A CPython numeric value as it flows through the checkout arithmetic:
an `int`, a `float`, or a `decimal.Decimal`.  `float` and `Decimal`
payloads are kept as exact rationals; the only float literal in the
embedded code (`0.10`) never survives an arithmetic operation, so its
binary rounding is irrelevant. -/
inductive PyNum where
  | pint (n : Int)
  | pfloat (q : ℚ)
  | pdec (q : ℚ)
  deriving Repr, DecidableEq

namespace PyNum

/-- Numeric value, used for comparisons (CPython allows comparing
`Decimal` with `int` and `float`). -/
def toRat : PyNum → ℚ
  | pint n => n
  | pfloat q => q
  | pdec q => q

/-- CPython multiplication: `Decimal` mixed with `float` (either order)
raises `TypeError` (`none`); every other combination succeeds, and
`Decimal` absorbs `int`. -/
def pyMul : PyNum → PyNum → Option PyNum
  | pdec _, pfloat _ => none
  | pfloat _, pdec _ => none
  | pdec a, pdec b => some (pdec (a * b))
  | pdec a, pint b => some (pdec (a * b))
  | pint a, pdec b => some (pdec (a * b))
  | pint a, pint b => some (pint (a * b))
  | pfloat a, pfloat b => some (pfloat (a * b))
  | pfloat a, pint b => some (pfloat (a * b))
  | pint a, pfloat b => some (pfloat (a * b))

/-- CPython addition: same mixing rules as `pyMul`. -/
def pyAdd : PyNum → PyNum → Option PyNum
  | pdec _, pfloat _ => none
  | pfloat _, pdec _ => none
  | pdec a, pdec b => some (pdec (a + b))
  | pdec a, pint b => some (pdec (a + b))
  | pint a, pdec b => some (pdec (a + b))
  | pint a, pint b => some (pint (a + b))
  | pfloat a, pfloat b => some (pfloat (a + b))
  | pfloat a, pint b => some (pfloat (a + b))
  | pint a, pfloat b => some (pfloat (a + b))

end PyNum

/-- `apps/products/models/product.py`: the fields of `Product` this core
reads.  `price` is a `DecimalField`, i.e. a `Decimal` at runtime.
`published` stands for `status == STATUS_PUBLISHED`. -/
structure Product where
  id : Nat
  name : String
  sku : String
  price : ℚ
  is_deleted : Bool
  published : Bool
  deriving Repr, DecidableEq

/-- `apps/cart/models.py`: a `CartItem` row (`quantity` is a
`PositiveIntegerField`). -/
structure CartItem where
  product : Product
  quantity : Nat
  deriving Repr, DecidableEq

/-- `Cart.get_valid_items` filter: not soft-deleted and published. -/
def CartItem.isValid (it : CartItem) : Bool :=
  !it.product.is_deleted && it.product.published

/-- `Cart.subtotal`: `Sum(quantity * price)` over the valid items,
`None` coalesced to `0`, then wrapped in `Decimal(str(...))` — so the
result is always a `Decimal`. -/
def cart_subtotal (items : List CartItem) : PyNum :=
  PyNum.pdec (((items.filter CartItem.isValid).map
    (fun it => (it.quantity : ℚ) * it.product.price)).sum)

/-- `apps/orders/models/order.py`: `Order.OrderStatus`. -/
inductive OrderStatus where
  | pending | confirmed | processing | shipped | delivered
  | cancelled | refunded
  deriving Repr, DecidableEq

/-- `apps/orders/models/order.py`: `Order.PaymentStatus`. -/
inductive PaymentStatus where
  | pending | paid | failed | refunded
  deriving Repr, DecidableEq

/-- `apps/orders/models/order.py`: an `OrderItem` row.  `product_name`,
`product_sku` and `unit_price` are unset at construction
(`CharField` instances default to `""`, an unset `DecimalField` is
`None`) and are filled in by `OrderItem.save`. -/
structure OrderItem where
  productId : Nat
  product_name : String
  product_sku : String
  unit_price : Option ℚ
  quantity : Nat
  deriving Repr, DecidableEq

/-- `OrderItem.save`: snapshot the product's name/SKU/price into the
item if `product_name` is not yet set. -/
def OrderItem.saveRow (item : OrderItem) (product : Product) : OrderItem :=
  if item.product_name = "" then
    { item with product_name := product.name,
                product_sku := product.sku,
                unit_price := some product.price }
  else item

/-- The `OrderItem.objects.create(order=…, product=…, quantity=…)` call
in checkout followed by `OrderItem.save`: all snapshot fields unset, so
`save` fills them from the product. -/
def mkOrderItem (product : Product) (quantity : Nat) : OrderItem :=
  OrderItem.saveRow ⟨product.id, "", "", none, quantity⟩ product

/-- `apps/orders/models/order.py`: the `Order` fields this core writes
(the uuid-based `order_number` and the address/user foreign keys carry
no logic and are omitted). -/
structure Order where
  subtotal : ℚ
  shipping_cost : ℚ
  tax : ℚ
  total : ℚ
  status : OrderStatus
  payment_status : PaymentStatus
  items : List OrderItem
  customer_notes : String
  updated_at : Int
  deriving Repr, DecidableEq

/-- The inventory table: one row per product id that has one
(`hasattr(product, "inventory")` is lookup success). -/
def InvDB := List (Nat × Inventory)

instance : DecidableEq InvDB := by
  unfold InvDB; infer_instance

/-- Look up the inventory row linked to a product id. -/
def findInv (db : InvDB) (pid : Nat) : Option Inventory :=
  (List.find? (fun e => e.1 = pid) db).map (fun e => e.2)

/-- Write back the (locked) inventory row for a product id. -/
def setInv (db : InvDB) (pid : Nat) (inv : Inventory) : InvDB :=
  List.map (fun e => if e.1 = pid then (pid, inv) else e) db

/-- The slice of database state `create_order_from_cart` touches for the
calling user: whether the user's `Cart` row exists, its items, the
inventory table, and the ids of `Address` rows owned by the user. -/
structure CheckoutState where
  cartExists : Bool
  cartItems : List CartItem
  inv : InvDB
  addresses : List Nat
  deriving DecidableEq

/-- The exceptions `create_order_from_cart` can raise:
`ValueError("Cart is empty")`, `Address.DoesNotExist`,
`ValueError(f"Insufficient stock for {product.name}")`, and the
`TypeError` CPython raises in `_calculate_tax` when a `Decimal` is
multiplied by the `float` literal `0.10`. -/
inductive CheckoutErr where
  | emptyCart
  | addressNotFound
  | insufficientStock (productName : String)
  | typeErr
  deriving Repr, DecidableEq

namespace CheckoutService

/-- `CheckoutService._calculate_shipping(cart)`: free shipping over
$100, based on `cart.subtotal` (a `Decimal`/`int` comparison, which
CPython permits). -/
def calculate_shipping (items : List CartItem) : PyNum :=
  if (cart_subtotal items).toRat > 100 then PyNum.pint 0 else PyNum.pint 10

/-- `CheckoutService._calculate_tax(subtotal)`: `subtotal * 0.10`.
The subtotal is a `Decimal` and `0.10` is a `float`, so in CPython this
multiplication raises `TypeError`; `none` models that. -/
def calculate_tax (subtotal : PyNum) : Option PyNum :=
  subtotal.pyMul (PyNum.pfloat (1 / 10))

/-- The `for cart_item in cart.items.all():` loop of
`create_order_from_cart` (checkout_service.py lines 50–62): for each
cart line, if the product has an inventory row, `reserve` the quantity
and abort the transaction with the insufficient-stock `ValueError` on
failure; with or without an inventory row, create the `OrderItem`
(whose `save` snapshots name/SKU/price). -/
def processItems :
    List CartItem → InvDB → List OrderItem →
      Except CheckoutErr (InvDB × List OrderItem)
  | [], db, acc => .ok (db, acc.reverse)
  | it :: rest, db, acc =>
    match findInv db it.product.id with
    | some invRow =>
      let r := invRow.reserve (it.quantity : Int)
      if r.2 then
        processItems rest (setInv db it.product.id r.1)
          (mkOrderItem it.product it.quantity :: acc)
      else
        .error (.insufficientStock it.product.name)
    | none =>
      processItems rest db (mkOrderItem it.product it.quantity :: acc)

/-- `CheckoutService.create_order_from_cart`, a `@transaction.atomic`
unit: load the cart (missing or empty ⇒ `ValueError("Cart is empty")`),
resolve the addresses (⇒ `Address.DoesNotExist`), compute
subtotal/shipping/tax/total, create the `Order` header, run the item
loop, clear the cart.  Any raised exception rolls the transaction back,
so an `Except.error` outcome carries no state: the caller keeps the
pre-call `CheckoutState`. -/
def create_order_from_cart (st : CheckoutState) (shipping_address_id : Nat)
    (billing_address_id : Option Nat) (customer_notes : String) :
    Except CheckoutErr (CheckoutState × Order) := do
  if !st.cartExists then throw .emptyCart
  if st.cartItems.isEmpty then throw .emptyCart
  if !st.addresses.contains shipping_address_id then throw .addressNotFound
  match billing_address_id with
  | some bid => if !st.addresses.contains bid then throw .addressNotFound
  | none => pure ()
  let subtotal := cart_subtotal st.cartItems
  let shipping_cost := calculate_shipping st.cartItems
  match calculate_tax subtotal with
  | none => throw .typeErr
  | some tax =>
    match (subtotal.pyAdd shipping_cost).bind (fun s => s.pyAdd tax) with
    | none => throw .typeErr
    | some total =>
      match processItems st.cartItems st.inv [] with
      | .error e => throw e
      | .ok (db', orderItems) =>
        return ({ st with cartItems := [], inv := db' },
          { subtotal := subtotal.toRat, shipping_cost := shipping_cost.toRat,
            tax := tax.toRat, total := total.toRat,
            status := .pending, payment_status := .pending,
            items := orderItems, customer_notes := customer_notes,
            updated_at := 0 })

end CheckoutService

/-- The Django `TextChoices` string value of an order status. -/
def OrderStatus.text : OrderStatus → String
  | .pending => "PENDING"
  | .confirmed => "CONFIRMED"
  | .processing => "PROCESSING"
  | .shipped => "SHIPPED"
  | .delivered => "DELIVERED"
  | .cancelled => "CANCELLED"
  | .refunded => "REFUNDED"

/-- `apps/orders/models/return_request.py`: `ReturnRequest.ReturnStatus`. -/
inductive ReturnStatus where
  | pending | approved | rejected | received | refunded
  deriving Repr, DecidableEq

/-- `apps/orders/models/return_request.py`: the `ReturnRequest` fields
the refund path reads and writes. -/
structure ReturnRequest where
  status : ReturnStatus
  refund_amount : ℚ
  deriving Repr, DecidableEq

namespace OrderService

/-- `order_service.py`: `RETURN_WINDOW_DAYS = 7`. -/
def RETURN_WINDOW_DAYS : Int := 7

/-- `timedelta(days=RETURN_WINDOW_DAYS)` in seconds (timestamps are
modelled as integer seconds). -/
def return_window_seconds : Int := RETURN_WINDOW_DAYS * 86400

/-- One iteration of the release loops in `cancel_order` and
`process_refund`: `if hasattr(item.product, "inventory"):
item.product.inventory.release(item.quantity)`. -/
def releaseStep (db : InvDB) (item : OrderItem) : InvDB :=
  match findInv db item.productId with
  | some invRow => setInv db item.productId (invRow.release (item.quantity : Int))
  | none => db

/-- The whole `for item in order.items.all():` release loop. -/
def releaseAll (db : InvDB) (items : List OrderItem) : InvDB :=
  items.foldl releaseStep db

/-- `OrderService.cancel_order`, a `@transaction.atomic` unit: refuse if
the status is DELIVERED, CANCELLED or REFUNDED; otherwise release each
item's reserved stock (where an inventory row exists) and set the
status to CANCELLED.  Result: ((success, message), order row, inventory
table). -/
def cancel_order (order : Order) (db : InvDB) :
    (Bool × String) × Order × InvDB :=
  if order.status = .delivered ∨ order.status = .cancelled ∨
      order.status = .refunded then
    ((false, "Cannot cancel order with status: " ++ order.status.text),
      order, db)
  else
    ((true, "Order cancelled successfully"),
      { order with status := .cancelled }, releaseAll db order.items)

/-- `OrderService.can_cancel_order`: status not in
[DELIVERED, CANCELLED, REFUNDED, SHIPPED]. -/
def can_cancel_order (order : Order) : Bool :=
  !(order.status = .delivered ∨ order.status = .cancelled ∨
    order.status = .refunded ∨ order.status = .shipped : Bool)

/-- `OrderService.can_request_return`: DELIVERED, no existing
`ReturnRequest` (`hasattr(order, "return_request")`), and
`timezone.now()` at most `updated_at + timedelta(days=7)`.
`now` is the current time in integer seconds. -/
def can_request_return (order : Order) (hasReturnRequest : Bool)
    (now : Int) : Bool × String :=
  if order.status ≠ .delivered then
    (false, "Only delivered orders can be returned")
  else if hasReturnRequest then
    (false, "Return request already exists for this order")
  else if now > order.updated_at + return_window_seconds then
    (false, "Return window has expired (7 days)")
  else
    (true, "Order is eligible for return")

/-- `OrderService.process_refund`, a `@transaction.atomic` unit: only
from APPROVED or RECEIVED; set the return request to REFUNDED, the
order's status and payment status to REFUNDED, and release each item's
reserved stock (where an inventory row exists).  Result:
((success, message), return request, order row, inventory table). -/
def process_refund (rr : ReturnRequest) (order : Order) (db : InvDB) :
    (Bool × String) × ReturnRequest × Order × InvDB :=
  if rr.status = .approved ∨ rr.status = .received then
    ((true, "Refund processed successfully"),
      { rr with status := .refunded },
      { order with status := .refunded, payment_status := .refunded },
      releaseAll db order.items)
  else
    ((false, "Return request must be approved or received first"),
      rr, order, db)

end OrderService

end Ecommerce

open Ecommerce

/-- If every item of a list refers to the product id `pid` and `pid` has
no inventory row in `db`, the release loop leaves the inventory table
unchanged. -/
theorem releaseAll_of_no_inventory (db : InvDB) (pid : Nat)
    (h : findInv db pid = none) :
    ∀ items : List OrderItem, (∀ oi ∈ items, oi.productId = pid) →
      OrderService.releaseAll db items = db := by
  intro items
  induction items with
  | nil => intro _; rfl
  | cons oi rest ih =>
    intro hall
    have hoi : oi.productId = pid := hall oi (List.mem_cons_self oi rest)
    have hstep : OrderService.releaseStep db oi = db := by
      unfold OrderService.releaseStep
      rw [hoi, h]
    have : OrderService.releaseAll db (oi :: rest)
        = OrderService.releaseAll db rest := by
      unfold OrderService.releaseAll
      simp only [List.foldl_cons, hstep]
    rw [this]
    exact ih (fun x hx => hall x (List.mem_cons_of_mem oi hx))

/-- C1: `Inventory.reserve` succeeds and increments `reserved` by exactly
the requested quantity iff `available ≥ qty` when the row lock is held
(here: at call time); a successful call leaves `quantity` (and the
threshold) unchanged, and a failed call returns `false` and leaves the
whole row — in particular `quantity` and `reserved` — unchanged. -/
theorem C1_reserve_succeeds_iff_available (inv : Inventory) (qty : Int) :
    ((inv.reserve qty).2 = true ∧
      (inv.reserve qty).1.reserved = inv.reserved + qty
        ↔ inv.available ≥ qty) ∧
    ((inv.reserve qty).2 = true →
      (inv.reserve qty).1.quantity = inv.quantity ∧
      (inv.reserve qty).1.low_stock_threshold = inv.low_stock_threshold) ∧
    ((inv.reserve qty).2 = false → (inv.reserve qty).1 = inv) := by
  unfold Inventory.reserve
  by_cases h : inv.available ≥ qty <;> simp [h]

/-- C8: `Inventory.release` always succeeds (it is a total function with
no failure outcome), sets `reserved` to `max 0 (reserved - qty)`, and
changes no other field of the row. -/
theorem C8_release_floors_at_zero (inv : Inventory) (qty : Int) :
    (inv.release qty).reserved = max 0 (inv.reserved - qty) ∧
    (inv.release qty).quantity = inv.quantity ∧
    (inv.release qty).low_stock_threshold = inv.low_stock_threshold := by
  unfold Inventory.release
  exact ⟨rfl, rfl, rfl⟩

/-- C10: `reserve` does not require a positive quantity: whenever
`qty ≤ available` — which covers `qty = 0` and every negative `qty`,
since `available ≥ 0` — it returns `true` and sets `reserved` to
`reserved + qty`; hence a negative quantity strictly decreases the
`reserved` counter. -/
theorem C10_reserve_accepts_nonpositive (inv : Inventory) (qty : Int) :
    (qty ≤ inv.available →
      (inv.reserve qty).2 = true ∧
      (inv.reserve qty).1.reserved = inv.reserved + qty) ∧
    (qty < 0 →
      (inv.reserve qty).2 = true ∧
      (inv.reserve qty).1.reserved < inv.reserved) := by
  constructor
  · intro h
    unfold Inventory.reserve
    simp [ge_iff_le, h]
  · intro hneg
    have hav : qty ≤ inv.available := by
      have : (0 : Int) ≤ inv.available := le_max_left 0 _
      omega
    unfold Inventory.reserve
    rw [if_pos hav]
    refine ⟨rfl, ?_⟩
    show inv.reserved + qty < inv.reserved
    omega

/-- C1 witness: the reservation behaviour at the concrete row
`quantity = 5, reserved = 2` requesting 3 units (`available = 3 ≥ 3`,
so the call succeeds and `reserved` becomes 5). -/
theorem C1_reserve_succeeds_iff_available_witness :
    ((Inventory.mk 5 2 10).reserve 3).2 = true ∧
    ((Inventory.mk 5 2 10).reserve 3).1.reserved = 2 + 3 :=
  (C1_reserve_succeeds_iff_available (Inventory.mk 5 2 10) 3).1.mpr (by decide)

/-- C8 witness: releasing 3 from `reserved = 2` floors at 0 and leaves
`quantity` and the threshold alone. -/
theorem C8_release_floors_at_zero_witness :
    ((Inventory.mk 5 2 10).release 3).reserved = max 0 ((2 : Int) - 3) ∧
    ((Inventory.mk 5 2 10).release 3).quantity = 5 ∧
    ((Inventory.mk 5 2 10).release 3).low_stock_threshold = 10 :=
  C8_release_floors_at_zero (Inventory.mk 5 2 10) 3

/-- C10 witness: reserving −3 on the row `quantity = 5, reserved = 2`
succeeds and strictly decreases `reserved`. -/
theorem C10_reserve_accepts_nonpositive_witness :
    ((Inventory.mk 5 2 10).reserve (-3)).2 = true ∧
    ((Inventory.mk 5 2 10).reserve (-3)).1.reserved < 2 :=
  (C10_reserve_accepts_nonpositive (Inventory.mk 5 2 10) (-3)).2 (by decide)

/-- C2 counterexample: from the state `quantity = 5, reserved = 0`
(which satisfies `0 ≤ reserved ≤ quantity`), `confirm_reservation 1`
produces `reserved = -1`, violating the invariant — so it is not true
that every mutator preserves the invariant for every argument. -/
theorem C2_counterexample_confirm_breaks_invariant :
    (Inventory.mk 5 0 10).invariant ∧
    ¬ ((Inventory.mk 5 0 10).confirm_reservation 1).invariant := by
  decide

/-- C2 (amended): from any state satisfying `0 ≤ reserved ≤ quantity`,
`reserve` and `release` preserve the invariant for every nonnegative
argument; `confirm_reservation qty` preserves it exactly when
`qty ≤ reserved`; and `adjust_stock delta` preserves it exactly when
`reserved ≤ quantity + delta`.  (Negative arguments to `reserve` or
`release`, over-confirmation, and large negative adjustments can all
break the invariant.) -/
theorem C2_invariant_preservation (inv : Inventory) (hinv : inv.invariant) :
    (∀ qty : Int, 0 ≤ qty → ((inv.reserve qty).1).invariant) ∧
    (∀ qty : Int, 0 ≤ qty → (inv.release qty).invariant) ∧
    (∀ qty : Int,
      (inv.confirm_reservation qty).invariant ↔ qty ≤ inv.reserved) ∧
    (∀ delta : Int,
      (inv.adjust_stock delta).invariant ↔ inv.reserved ≤ inv.quantity + delta) := by
  obtain ⟨h0, hq⟩ := hinv
  refine ⟨?_, ?_, ?_, ?_⟩
  · intro qty hqty
    unfold Inventory.reserve
    by_cases h : inv.available ≥ qty
    · simp only [h, if_pos]
      constructor
      · simpa using add_nonneg h0 hqty
      · simp only
        have : max 0 (inv.quantity - inv.reserved) ≥ qty := h
        rcases le_or_lt qty 0 with h1 | h1
        · omega
        · have h2 : (0 : Int) < max 0 (inv.quantity - inv.reserved) := lt_of_lt_of_le h1 this
          have h3 : max 0 (inv.quantity - inv.reserved) = inv.quantity - inv.reserved := by
            omega
          omega
    · simp only [h, if_neg, not_false_iff]
      exact ⟨h0, hq⟩
  · intro qty hqty
    have h1 : (inv.release qty).reserved = max 0 (inv.reserved - qty) := rfl
    have h2 : (inv.release qty).quantity = inv.quantity := rfl
    unfold Inventory.invariant
    rw [h1, h2]
    omega
  · intro qty
    have h1 : (inv.confirm_reservation qty).reserved = inv.reserved - qty := rfl
    have h2 : (inv.confirm_reservation qty).quantity = inv.quantity - qty := rfl
    unfold Inventory.invariant
    rw [h1, h2]
    omega
  · intro delta
    have h1 : (inv.adjust_stock delta).reserved = inv.reserved := rfl
    have h2 : (inv.adjust_stock delta).quantity = inv.quantity + delta := rfl
    unfold Inventory.invariant
    rw [h1, h2]
    omega

/-- C2 witness: the amended preservation theorem applied at the concrete
row `quantity = 5, reserved = 2`. -/
theorem C2_invariant_preservation_witness :
    (Inventory.mk 5 2 10).invariant ∧
    (((Inventory.mk 5 2 10).reserve 3).1).invariant ∧
    ((Inventory.mk 5 2 10).confirm_reservation 2).invariant := by
  have h := C2_invariant_preservation (Inventory.mk 5 2 10) (by decide)
  exact ⟨by decide, h.1 3 (by decide), (h.2.2.1 2).mpr (by decide)⟩

/-- C3: the spec's two-product scenario — P1 with `available = 5`, P2
with `available = 0`, one unit of each in the cart, a valid address.
The claim says checkout fails with the insufficient-stock error naming
P2; the code instead raises `TypeError` at `_calculate_tax`
(`Decimal * float`) before any stock is even checked.  The transaction
still rolls back (the `Except.error` outcome carries no state), but the
surfaced error is not the insufficient-stock one. -/
theorem C3_checkout_fails_with_type_error_not_stock :
    CheckoutService.create_order_from_cart
      ⟨true,
        [⟨⟨1, "P1", "SKU1", (10 : ℚ), false, true⟩, 1⟩,
         ⟨⟨2, "P2", "SKU2", (10 : ℚ), false, true⟩, 1⟩],
        [(1, ⟨5, 0, 10⟩), (2, ⟨0, 0, 10⟩)],
        [1]⟩ 1 none ""
      = Except.error CheckoutErr.typeErr ∧
    CheckoutErr.typeErr ≠ CheckoutErr.insufficientStock "P2" := by
  exact ⟨rfl, by decide⟩

/-- C4: the spec's successful-checkout scenario — one cart line of
product P, quantity 2, unit price 100.00, ample stock, a valid address.
The cart subtotal is indeed the `Decimal` 200, but
`_calculate_tax(subtotal)` computes `subtotal * 0.10` with a `float`
literal, which CPython rejects with `TypeError`, so checkout raises
instead of producing the claimed Order. -/
theorem C4_checkout_raises_instead_of_order :
    cart_subtotal [⟨⟨1, "P", "SKU-P", (100 : ℚ), false, true⟩, 2⟩]
      = PyNum.pdec 200 ∧
    CheckoutService.calculate_tax (PyNum.pdec 200) = none ∧
    CheckoutService.create_order_from_cart
      ⟨true, [⟨⟨1, "P", "SKU-P", (100 : ℚ), false, true⟩, 2⟩],
        [(1, ⟨10, 0, 10⟩)], [1]⟩ 1 none ""
      = Except.error CheckoutErr.typeErr := by
  refine ⟨?_, rfl, rfl⟩
  unfold cart_subtotal
  norm_num [CartItem.isValid]

/-- C5 counterexample: a SHIPPED order.  `cancel_order` succeeds on it
(SHIPPED is not in its non-cancellable list), yet `can_cancel_order`
returns `false` (its list additionally contains SHIPPED) — so the
eligibility query does not return `true` for exactly the statuses on
which cancellation succeeds. -/
theorem C5_counterexample_shipped_order :
    (OrderService.cancel_order
      ⟨0, 0, 0, 0, .shipped, .paid, [], "", 0⟩ []).1.1 = true ∧
    OrderService.can_cancel_order
      ⟨0, 0, 0, 0, .shipped, .paid, [], "", 0⟩ = false := by
  decide

/-- C5 (amended): `cancel_order` succeeds iff the status is not
DELIVERED, CANCELLED or REFUNDED; on success it releases every order
item's reserved stock and sets the status to CANCELLED.
`can_cancel_order`, however, returns `true` iff the status is not
DELIVERED, CANCELLED, REFUNDED **or SHIPPED**: it additionally excludes
SHIPPED, so the two disagree exactly on SHIPPED orders. -/
theorem C5_cancel_vs_eligibility (order : Order) (db : InvDB) :
    ((OrderService.cancel_order order db).1.1 = true ↔
      ¬(order.status = .delivered ∨ order.status = .cancelled ∨
        order.status = .refunded)) ∧
    ((OrderService.cancel_order order db).1.1 = true →
      (OrderService.cancel_order order db).2 =
        ({ order with status := .cancelled },
          OrderService.releaseAll db order.items)) ∧
    (OrderService.can_cancel_order order = true ↔
      ¬(order.status = .delivered ∨ order.status = .cancelled ∨
        order.status = .refunded ∨ order.status = .shipped)) := by
  cases h : order.status <;>
    simp [OrderService.cancel_order, OrderService.can_cancel_order, h]

/-- C5 witness: cancelling a concrete PENDING order succeeds. -/
theorem C5_cancel_vs_eligibility_witness :
    (OrderService.cancel_order
      ⟨0, 0, 0, 0, .pending, .pending, [], "", 0⟩ []).1.1 = true :=
  (C5_cancel_vs_eligibility
    ⟨0, 0, 0, 0, .pending, .pending, [], "", 0⟩ []).1.mpr (by decide)

/-- C6: `process_refund` succeeds iff the return request is APPROVED or
RECEIVED; on success it marks the request REFUNDED, the order REFUNDED
with payment status REFUNDED, and releases every order item's reserved
stock; called on an already-REFUNDED request it fails and leaves the
request, the order and the inventory table unchanged. -/
theorem C6_process_refund_gated_and_idempotent (rr : ReturnRequest)
    (order : Order) (db : InvDB) :
    ((OrderService.process_refund rr order db).1.1 = true ↔
      rr.status = .approved ∨ rr.status = .received) ∧
    ((OrderService.process_refund rr order db).1.1 = true →
      (OrderService.process_refund rr order db).2 =
        ({ rr with status := .refunded },
          { order with status := .refunded, payment_status := .refunded },
          OrderService.releaseAll db order.items)) ∧
    (rr.status = .refunded →
      (OrderService.process_refund rr order db).1.1 = false ∧
      (OrderService.process_refund rr order db).2 = (rr, order, db)) := by
  cases h : rr.status <;>
    simp [OrderService.process_refund, h]

/-- C6 witness: refunding a concrete APPROVED return request succeeds. -/
theorem C6_process_refund_gated_and_idempotent_witness :
    (OrderService.process_refund ⟨.approved, 21⟩
      ⟨0, 0, 0, 0, .delivered, .paid, [], "", 0⟩ []).1.1 = true :=
  (C6_process_refund_gated_and_idempotent ⟨.approved, 21⟩
    ⟨0, 0, 0, 0, .delivered, .paid, [], "", 0⟩ []).1.mpr (Or.inl rfl)

/-- C7: `can_request_return` returns `true` iff the order is DELIVERED,
has no existing return request, and the current time is at most
`RETURN_WINDOW_DAYS` (7 days) after the order's `updated_at`; in
particular it is `false` for a PENDING order and `false` for a
DELIVERED order that already has a return request. -/
theorem C7_return_eligibility (order : Order) (hasRR : Bool) (now : Int) :
    ((OrderService.can_request_return order hasRR now).1 = true ↔
      order.status = .delivered ∧ hasRR = false ∧
        now ≤ order.updated_at + 7 * 86400) ∧
    (order.status = .pending →
      (OrderService.can_request_return order hasRR now).1 = false) ∧
    (order.status = .delivered → hasRR = true →
      (OrderService.can_request_return order hasRR now).1 = false) := by
  unfold OrderService.can_request_return OrderService.return_window_seconds
    OrderService.RETURN_WINDOW_DAYS
  split_ifs with h1 h2 h3 <;> simp_all

/-- C7 witness: a concrete DELIVERED order with no return request,
queried 100 seconds after its last update, is eligible. -/
theorem C7_return_eligibility_witness :
    (OrderService.can_request_return
      ⟨0, 0, 0, 0, .delivered, .paid, [], "", 100⟩ false 200).1 = true :=
  (C7_return_eligibility
    ⟨0, 0, 0, 0, .delivered, .paid, [], "", 100⟩ false 200).1.mpr
    ⟨rfl, rfl, by decide⟩

/-- C9 counterexample: a cart whose single line is one million units of
a product with no inventory row.  The claim says checkout makes no
reservation yet still creates the line's OrderItem, so checkout can
succeed; in fact `create_order_from_cart` raises `TypeError` while
computing tax, so it does not succeed and no OrderItem is created. -/
theorem C9_counterexample_checkout_never_succeeds :
    CheckoutService.create_order_from_cart
      ⟨true, [⟨⟨2, "Gadget", "SKU-G", (5 : ℚ), false, true⟩, 1000000⟩],
        [], [1]⟩ 1 none ""
      = Except.error CheckoutErr.typeErr := by
  rfl

/-- C9 (amended): for a product id `pid` with no inventory row — the
failed `hasattr(product, "inventory")` check — the checkout item loop
performs no stock check and no reservation for a line of that product
and still appends its snapshotted OrderItem for any quantity, and the
release loops of `cancel_order` and `process_refund` leave the
inventory table untouched for orders made of such items; checkout as a
whole, however, cannot currently succeed because tax computation raises
`TypeError` first. -/
theorem C9_missing_inventory_row_skipped (db : InvDB) (pid : Nat)
    (h : findInv db pid = none) :
    (∀ (it : CartItem), it.product.id = pid →
      ∀ rest acc, CheckoutService.processItems (it :: rest) db acc =
        CheckoutService.processItems rest db
          (mkOrderItem it.product it.quantity :: acc)) ∧
    (∀ order : Order, (∀ oi ∈ order.items, oi.productId = pid) →
      (OrderService.cancel_order order db).2.2 = db) ∧
    (∀ (rr : ReturnRequest) (order : Order),
      (∀ oi ∈ order.items, oi.productId = pid) →
      (OrderService.process_refund rr order db).2.2.2 = db) := by
  refine ⟨?_, ?_, ?_⟩
  · intro it hit rest acc
    simp only [CheckoutService.processItems]
    rw [hit, h]
  · intro order hall
    unfold OrderService.cancel_order
    by_cases hs : order.status = .delivered ∨ order.status = .cancelled ∨
        order.status = .refunded
    · rw [if_pos hs]
    · rw [if_neg hs]
      exact releaseAll_of_no_inventory db pid h order.items hall
  · intro rr order hall
    unfold OrderService.process_refund
    by_cases hs : rr.status = .approved ∨ rr.status = .received
    · rw [if_pos hs]
      exact releaseAll_of_no_inventory db pid h order.items hall
    · rw [if_neg hs]

/-- C9 witness: the skip behaviour at a concrete inventory table holding
only product 1, with cart line / order item / return request for the
row-less product 2. -/
theorem C9_missing_inventory_row_skipped_witness :
    findInv [(1, Inventory.mk 5 2 10)] 2 = none ∧
    CheckoutService.processItems
        [⟨⟨2, "Q", "SKU-Q", (3 : ℚ), false, true⟩, 7⟩]
        [(1, Inventory.mk 5 2 10)] [] =
      CheckoutService.processItems []
        [(1, Inventory.mk 5 2 10)]
        [mkOrderItem ⟨2, "Q", "SKU-Q", (3 : ℚ), false, true⟩ 7] ∧
    (OrderService.cancel_order
        ⟨0, 0, 0, 0, .pending, .pending, [⟨2, "Q", "SKU-Q", some 3, 7⟩], "", 0⟩
        [(1, Inventory.mk 5 2 10)]).2.2 = [(1, Inventory.mk 5 2 10)] ∧
    (OrderService.process_refund ⟨.approved, 21⟩
        ⟨0, 0, 0, 0, .delivered, .paid, [⟨2, "Q", "SKU-Q", some 3, 7⟩], "", 0⟩
        [(1, Inventory.mk 5 2 10)]).2.2.2 = [(1, Inventory.mk 5 2 10)] := by
  have h := C9_missing_inventory_row_skipped
    [(1, Inventory.mk 5 2 10)] 2 (by decide)
  refine ⟨by decide, h.1 ⟨⟨2, "Q", "SKU-Q", (3 : ℚ), false, true⟩, 7⟩ rfl [] [],
    h.2.1 _ ?_, h.2.2 _ _ ?_⟩ <;>
    · intro oi hoi
      simp only [List.mem_singleton] at hoi
      subst hoi
      rfl
